import Mathlib

/-!
Verification of the golem command layer (src/golem/commands/base.py).

The command layer is embedded shallowly: the shared execution-context object
becomes an explicit record threaded through `RunCommand.run`, the catalog
queries of `golem.core.utils` (external collaborators, not under src/) become
fields of an `Env` record, and an invocation of the test runner becomes a
returned `RunAction` value. A Python `raise` becomes an `Except.error`; an
unbound-name reference (Python `NameError`) is modelled as `RunError.nameError`
carrying the unbound name, raised at the point the name is first evaluated.
-/

namespace Golem

/-- Stand-in for the settings dictionaries handled by
`utils.get_project_settings`; the command layer treats settings as opaque. -/
structure Settings where
  data : List (String × String)
deriving DecidableEq, Repr

/-- The shared execution-context object (`test_execution`) as used by
`RunCommand.run`: the attributes the command layer reads or assigns.
Attributes that may be unset in Python are `Option`s. -/
structure TestExecution where
  thread_amount : Int
  drivers : Option (List String)
  timestamp : Option String
  root_path : String
  project : Option String
  settings : Settings
  suite : Option String
  test : Option String
deriving DecidableEq, Repr

/-- The parsed arguments of the `run` command: `project` and `test_or_suite`
default to the empty string, `threads` to 0, `drivers` and `timestamp` to
Python `None`. -/
structure Args where
  project : String
  test_or_suite : String
  threads : Int
  drivers : Option (List String)
  timestamp : Option String
deriving DecidableEq, Repr

/-- The external collaborators called by the command layer: the catalog
queries of `golem.core.utils` (pure reads of the on-disk project tree). -/
structure Env where
  get_projects : String → List String
  test_suite_exists : String → String → String → Bool
  is_first_level_directory : String → String → String → Bool
  test_case_exists : String → String → String → Bool
  get_project_settings : String → Settings → Settings

/-- An error raised by a command: a `CommandException` with its message, or a
Python `NameError` for a reference to an unbound name. -/
inductive RunError where
  | nameError (unbound : String)
  | commandException (msg : String)
deriving DecidableEq, Repr

/-- The test-runner invocation a successful `run` dispatches to:
`test_runner.run_suite` (with its `is_directory` flag) or
`test_runner.run_single_test_case`, with the arguments passed at the call. -/
inductive RunAction where
  | runSuite (root_path project suite : String) (is_directory : Bool)
  | runSingleTestCase (root_path project test : String)
deriving DecidableEq, Repr

/-- Python string interpolation of a possibly-unset attribute:
`str(None)` is `"None"`. -/
def pyStr : Option String → String
  | none => "None"
  | some s => s

/-- Shallow embedding of `RunCommand.run` (src/golem/commands/base.py,
lines 45-114). The context assignments of lines 46-49 happen first; the
branches then mirror the source's `if`/`elif` chain. The two usage-message
branches evaluate the unbound name `parser`, so they end in a `NameError`
before their `CommandException` is constructed. The unknown-project branch
formats `test_execution.project` (still its prior value), not
`args.project`. The unconditional diagnostic print of line 47 is an effect
on stdout, not on the returned state or dispatch; it is carried by
`RunCommand.run_with_stdout` below. -/
def RunCommand.run (env : Env) (te0 : TestExecution) (args : Args) :
    TestExecution × Except RunError RunAction :=
  let te1 := { te0 with thread_amount := args.threads, drivers := args.drivers,
                        timestamp := args.timestamp }
  let root_path := te1.root_path
  if args.project = "" then
    (te1, .error (.nameError "parser"))
  else if ¬ args.project ∈ env.get_projects root_path then
    (te1, .error (.commandException
      ("Error: the project " ++ pyStr te1.project ++ " does not exist")))
  else
    let te2 := { te1 with project := some args.project,
                          settings := env.get_project_settings args.project
                            te1.settings }
    if args.test_or_suite = "" then
      (te2, .error (.nameError "parser"))
    else if env.test_suite_exists root_path args.project args.test_or_suite then
      ({ te2 with suite := some args.test_or_suite },
        .ok (.runSuite root_path args.project args.test_or_suite false))
    else if env.is_first_level_directory root_path args.project
        args.test_or_suite then
      ({ te2 with suite := some args.test_or_suite },
        .ok (.runSuite root_path args.project args.test_or_suite true))
    else if env.test_case_exists root_path args.project args.test_or_suite then
      ({ te2 with test := some args.test_or_suite },
        .ok (.runSingleTestCase root_path args.project args.test_or_suite))
    else
      (te2, .error (.commandException
        ("Error: the value " ++ args.test_or_suite ++
          " does not match an existing suite or test")))

/-- Shallow embedding of `RunCommand.run` together with the lines it writes
to stdout. The only print statement ever executed in the source function is
the unconditional `print('args.threads', args.threads)` at line 47 (the
tree print at line 75 sits after the line-70 `NameError` and is never
reached), so every invocation emits exactly that one diagnostic line. -/
def RunCommand.run_with_stdout (env : Env) (te0 : TestExecution)
    (args : Args) :
    (TestExecution × Except RunError RunAction) × List String :=
  (RunCommand.run env te0 args, ["args.threads " ++ toString args.threads])

/-- The admin-side creation an admin command dispatches to on success:
`utils.create_demo_project` or `utils.create_new_project`, with the
arguments passed at the call. -/
inductive AdminAction where
  | createDemoProject (root_path : String)
  | createNewProject (root_path project : String)
deriving DecidableEq, Repr

/-- Shallow embedding of `CreateProjectCommand.run` (src/golem/commands/base.py,
lines 141-152): error when the project already exists, otherwise the name
`demo` creates the demo project and any other name an ordinary project. -/
def CreateProjectCommand.run (env : Env) (te : TestExecution)
    (project : String) : Except RunError AdminAction :=
  let root_path := te.root_path
  if project ∈ env.get_projects root_path then
    .error (.commandException
      ("Error: a project with the name \x27" ++ project ++
        "\x27 already exists"))
  else if project = "demo" then
    .ok (.createDemoProject root_path)
  else
    .ok (.createNewProject root_path project)

/-- Shallow embedding of `CreateSuiteCommand.run` (src/golem/commands/base.py,
lines 185-192): a missing project raises a `CommandException`; otherwise the
call `suite_module.new_suite(root_path, ...)` evaluates the name `root_path`,
which is bound nowhere in the function or module, so it raises `NameError`
before the creation is attempted. -/
def CreateSuiteCommand.run (env : Env) (te : TestExecution)
    (project _suite : String) : Except RunError AdminAction :=
  if ¬ project ∈ env.get_projects te.root_path then
    .error (.commandException "Error: a project with that name does not exist")
  else
    .error (.nameError "root_path")

/-- Shallow embedding of `CreateUserCommand.run` (src/golem/commands/base.py,
lines 208-215): its first statement calls `utils.create_user(root_path, ...)`
and `root_path` is bound nowhere in the function or module, so every
invocation raises `NameError` before a user is created. -/
def CreateUserCommand.run (_te : TestExecution) (_username _password : String)
    (_admin : Bool) (_projects _reports : List String) :
    Except RunError AdminAction :=
  .error (.nameError "root_path")

/-! ### Spec-modelled collaborators

The catalog queries and the test runner live in `golem.core.utils` and
`golem.core.test_runner`, which are not under src/; where a claim depends on
their behaviour they are modelled from the spec. -/

/-- Modelled from the spec: the on-disk catalog read by `utils.get_projects`,
`utils.get_suites`/`test_suite_exists`, and `utils.get_test_cases`
(none of which are under src/). A test-case path is its list of dotted
segments (directories plus leaf name). -/
structure SpecCatalog where
  projects : List String
  suites : String → List String
  test_cases : String → List (List String)

/-- Split a character list at every dot, keeping empty segments, as Python
`str.split` with separator `.` does on the characters of the string. -/
def segsAux : List Char → List (List Char)
  | [] => [[]]
  | c :: rest =>
    match segsAux rest with
    | [] => [[]]
    | s :: ss => if c = '.' then [] :: s :: ss else (c :: s) :: ss

/-- A dotted target string split into its path segments
(Python `target.split(".")`). -/
def targetSegments (target : String) : List String :=
  (segsAux target.data).map fun cs => String.mk cs

/-- Modelled from the spec: `utils.is_first_level_directory` (not under src/).
Per the spec, a target matches when it is a first-level or nested directory
path under the project test-case tree, i.e. when some test case lies strictly
below it. -/
def SpecCatalog.directory_matches (cat : SpecCatalog)
    (project target : String) : Bool :=
  (cat.test_cases project).any fun tc =>
    (targetSegments target).isPrefixOf tc && !(targetSegments target == tc)

/-- Modelled from the spec: the test cases `test_runner.run_suite` (not under
src/) enumerates for a directory suite — all test cases under the subtree. -/
def SpecCatalog.directory_cases (cat : SpecCatalog)
    (project target : String) : List (List String) :=
  (cat.test_cases project).filter fun tc =>
    (targetSegments target).isPrefixOf tc

/-- The `Env` induced by a `SpecCatalog`: each collaborator query answered
from the catalog. -/
def catalogEnv (cat : SpecCatalog) : Env where
  get_projects := fun _ => cat.projects
  test_suite_exists := fun _ project name => (cat.suites project).contains name
  is_first_level_directory := fun _ project target =>
    cat.directory_matches project target
  test_case_exists := fun _ project target =>
    (cat.test_cases project).contains (targetSegments target)
  get_project_settings := fun _ s => s

/-- The status of one executed test case. -/
inductive Status where
  | passed
  | failed
  | errored
deriving DecidableEq, Repr

/-- Modelled from the spec: executing the dispatched runner invocation
(`test_runner`, not under src/) records one outcome per test case of the
resolved suite, directory or single test, and returns normally regardless of
the individual statuses. `cases_of` enumerates the test cases of an action;
`results` gives each test case its status. -/
def execute_action (cases_of : RunAction → List String)
    (results : String → Status) (a : RunAction) : List (String × Status) :=
  (cases_of a).map fun c => (c, results c)

/-- A whole `run` invocation: resolution by `RunCommand.run` followed, on
success, by the spec-modelled execution of the dispatched action. -/
def run_and_execute (env : Env) (te : TestExecution) (args : Args)
    (cases_of : RunAction → List String) (results : String → Status) :
    Except RunError (TestExecution × List (String × Status)) :=
  match RunCommand.run env te args with
  | (te2, .ok a) => .ok (te2, execute_action cases_of results a)
  | (_, .error e) => .error e

/-- Modelled from the spec: the timestamp generated for a run when none is
supplied, derived from a wall-clock reading with sub-second precision
(`utils.get_timestamp`, not under src/). -/
structure GeneratedTimestamp where
  clock_micros : Nat
deriving DecidableEq, Repr

/-- Modelled from the spec: generate a fresh run timestamp from the current
wall-clock reading (microsecond precision). -/
def generated_timestamp (clock_micros : Nat) : GeneratedTimestamp :=
  ⟨clock_micros⟩

/-- Modelled from the spec: the timestamp a run is keyed by — the supplied one
when present and non-empty, otherwise a freshly generated one. -/
def effective_timestamp (supplied : Option String) (clock_micros : Nat) :
    String ⊕ GeneratedTimestamp :=
  match supplied with
  | some s => if s = "" then .inr (generated_timestamp clock_micros) else .inl s
  | none => .inr (generated_timestamp clock_micros)

/-! ### Concrete fixtures used by the witnesses -/

/-- A concrete collaborator environment with one project `proj`: the target
`smoke` is simultaneously a declared suite, a directory and a test case,
`dir` is a directory and a test case but not a suite, `case` is only a test
case, and any other target matches nothing. -/
def envA : Env where
  get_projects := fun _ => ["proj"]
  test_suite_exists := fun _ _ target => target == "smoke"
  is_first_level_directory := fun _ _ target =>
    target == "smoke" || target == "dir"
  test_case_exists := fun _ _ target =>
    target == "smoke" || target == "dir" || target == "case"
  get_project_settings := fun _ s => s

/-- A concrete initial execution context whose command-line-copied fields
already hold the parser defaults, so that any change made by `run` on the
zero-argument fixtures below comes from resolution itself. -/
def teA : TestExecution :=
  { thread_amount := 0, drivers := none, timestamp := none,
    root_path := "root", project := none, settings := ⟨[]⟩,
    suite := none, test := none }

/-- Arguments naming project `proj` and the triply-matching target. -/
def argsSmoke : Args :=
  { project := "proj", test_or_suite := "smoke", threads := 0,
    drivers := none, timestamp := none }

/-- Arguments naming project `proj` and the directory-only target. -/
def argsDir : Args :=
  { project := "proj", test_or_suite := "dir", threads := 0,
    drivers := none, timestamp := none }

/-- Arguments naming project `proj` and the test-case-only target. -/
def argsCase : Args :=
  { project := "proj", test_or_suite := "case", threads := 0,
    drivers := none, timestamp := none }

/-- Arguments naming project `proj` and a target matching nothing. -/
def argsNope : Args :=
  { project := "proj", test_or_suite := "nope", threads := 0,
    drivers := none, timestamp := none }

/-- Arguments naming a nonexistent project. -/
def argsGhost : Args :=
  { project := "ghost", test_or_suite := "smoke", threads := 0,
    drivers := none, timestamp := none }

/-- Arguments with the project argument left at its empty default. -/
def argsNoProject : Args :=
  { project := "", test_or_suite := "smoke", threads := 0,
    drivers := none, timestamp := none }

/-- Arguments with a valid project but the target left at its empty
default. -/
def argsNoTarget : Args :=
  { project := "proj", test_or_suite := "", threads := 0,
    drivers := none, timestamp := none }

/-- A concrete spec-modelled catalog: one project `proj` with no declared
suites and test cases `a.b.t1`, `a.b.t2` and `c`, so that `a.b` is a nested
directory under the test-case tree. -/
def catB : SpecCatalog where
  projects := ["proj"]
  suites := fun _ => []
  test_cases := fun _ => [["a", "b", "t1"], ["a", "b", "t2"], ["c"]]

/-- Arguments naming project `proj` and the nested directory target `a.b`. -/
def argsNested : Args :=
  { project := "proj", test_or_suite := "a.b", threads := 0,
    drivers := none, timestamp := none }

/-! ### Claim theorems -/

/-- Claim C1: with an existing project and a non-empty target, the target is
resolved by testing, in this priority order with first match winning,
declared suite, then directory, then test case; the matching branch alone is
dispatched (`run_suite`, `run_suite` with `is_directory := true`, or
`run_single_test_case` respectively). -/
theorem run_resolution_priority (env : Env) (te : TestExecution) (args : Args)
    (hp : args.project ≠ "")
    (hmem : args.project ∈ env.get_projects te.root_path)
    (ht : args.test_or_suite ≠ "") :
    (env.test_suite_exists te.root_path args.project args.test_or_suite
        = true →
      (RunCommand.run env te args).2 =
        .ok (.runSuite te.root_path args.project args.test_or_suite false))
    ∧ (env.test_suite_exists te.root_path args.project args.test_or_suite
        = false →
       env.is_first_level_directory te.root_path args.project
         args.test_or_suite = true →
      (RunCommand.run env te args).2 =
        .ok (.runSuite te.root_path args.project args.test_or_suite true))
    ∧ (env.test_suite_exists te.root_path args.project args.test_or_suite
        = false →
       env.is_first_level_directory te.root_path args.project
         args.test_or_suite = false →
       env.test_case_exists te.root_path args.project args.test_or_suite
         = true →
      (RunCommand.run env te args).2 =
        .ok (.runSingleTestCase te.root_path args.project
          args.test_or_suite)) := by
  refine ⟨?_, ?_, ?_⟩
  · intro hs
    simp [RunCommand.run, hp, hmem, ht, hs]
  · intro hs hd
    simp [RunCommand.run, hp, hmem, ht, hs, hd]
  · intro hs hd hc
    simp [RunCommand.run, hp, hmem, ht, hs, hd, hc]

/-- Witness for C1: on a fixture where the target is at once a declared
suite, a directory and a test case, the declared-suite branch wins. -/
theorem run_resolution_priority_witness :
    (RunCommand.run envA teA argsSmoke).2 =
      .ok (.runSuite "root" "proj" "smoke" false) :=
  (run_resolution_priority envA teA argsSmoke (by decide) (by decide)
    (by decide)).1 rfl

/-- Claim C2: a target matching neither a declared suite, nor a directory,
nor a test case (project valid, target non-empty) raises a
`CommandException` whose message names the offending target, and no runner
invocation is dispatched. -/
theorem run_unmatched_target (env : Env) (te : TestExecution) (args : Args)
    (hp : args.project ≠ "")
    (hmem : args.project ∈ env.get_projects te.root_path)
    (ht : args.test_or_suite ≠ "")
    (hs : env.test_suite_exists te.root_path args.project args.test_or_suite
      = false)
    (hd : env.is_first_level_directory te.root_path args.project
      args.test_or_suite = false)
    (hc : env.test_case_exists te.root_path args.project args.test_or_suite
      = false) :
    (RunCommand.run env te args).2 =
      .error (.commandException
        ("Error: the value " ++ args.test_or_suite ++
          " does not match an existing suite or test")) := by
  simp [RunCommand.run, hp, hmem, ht, hs, hd, hc]

/-- Witness for C2: the unmatched target `nope` raises the error naming it,
with the message fully evaluated. -/
theorem run_unmatched_target_witness :
    (RunCommand.run envA teA argsNope).2 =
      .error (.commandException
        "Error: the value nope does not match an existing suite or test") :=
  (run_unmatched_target envA teA argsNope (by decide) (by decide) (by decide)
    rfl rfl rfl).trans rfl

/-- Claim C3: a full run raises an error exactly when the project argument is
empty or names no existing project, or the target is empty or matches
nothing; whenever the target resolves to a suite, directory or test case the
run returns normally, and whether it returns normally never depends on the
individual test results. -/
theorem run_exit_behavior (env : Env) (te : TestExecution) (args : Args)
    (cases_of : RunAction → List String) (results results2 : String → Status) :
    ((run_and_execute env te args cases_of results).isOk =
      (run_and_execute env te args cases_of results2).isOk)
    ∧ ((run_and_execute env te args cases_of results).isOk = true ↔
        (args.project ≠ "" ∧ args.project ∈ env.get_projects te.root_path ∧
         args.test_or_suite ≠ "" ∧
         (env.test_suite_exists te.root_path args.project args.test_or_suite
            = true ∨
          env.is_first_level_directory te.root_path args.project
            args.test_or_suite = true ∨
          env.test_case_exists te.root_path args.project args.test_or_suite
            = true))) := by
  by_cases hp : args.project = ""
  · simp [run_and_execute, RunCommand.run, Except.isOk, Except.toBool, hp]
  · by_cases hm : args.project ∈ env.get_projects te.root_path
    · by_cases ht : args.test_or_suite = ""
      · simp [run_and_execute, RunCommand.run, Except.isOk, Except.toBool, hp, hm, ht]
      · by_cases hs : env.test_suite_exists te.root_path args.project
            args.test_or_suite = true
        · simp [run_and_execute, RunCommand.run, Except.isOk, Except.toBool, hp, hm, ht, hs]
        · by_cases hd : env.is_first_level_directory te.root_path args.project
              args.test_or_suite = true
          · simp [run_and_execute, RunCommand.run, Except.isOk, Except.toBool, hp, hm, ht, hs, hd]
          · by_cases hc : env.test_case_exists te.root_path args.project
                args.test_or_suite = true
            · simp [run_and_execute, RunCommand.run, Except.isOk, Except.toBool, hp, hm, ht, hs, hd, hc]
            · simp [run_and_execute, RunCommand.run, Except.isOk, Except.toBool, hp, hm, ht, hs, hd, hc]
    · simp [run_and_execute, RunCommand.run, Except.isOk, Except.toBool, hp, hm]

/-- Claim C4: with a non-empty project argument that names no existing
project, `run` raises a `CommandException` immediately — but the message it
formats names `test_execution.project`, still holding its prior value, not
the attempted `args.project`. -/
theorem run_unknown_project_message (env : Env) (te : TestExecution)
    (args : Args) (hp : args.project ≠ "")
    (hmem : ¬ args.project ∈ env.get_projects te.root_path) :
    (RunCommand.run env te args).2 =
      .error (.commandException
        ("Error: the project " ++ pyStr te.project ++ " does not exist")) := by
  simp [RunCommand.run, hp, hmem]

/-- Witness for C4: attempting the nonexistent project `ghost` on a context
whose `project` attribute is unset raises the message naming `None`, not
`ghost`. -/
theorem run_unknown_project_message_witness :
    (RunCommand.run envA teA argsGhost).2 =
      .error (.commandException "Error: the project None does not exist") :=
  (run_unknown_project_message envA teA argsGhost (by decide)
    (by decide)).trans rfl

/-- Claim C5: a target that is a directory path — first-level or nested —
under the project test-case tree, with no identically-named declared suite,
resolves to the directory-suite dispatch, and the directory suite enumerates
exactly the test cases under that subtree. -/
theorem resolve_directory_target (cat : SpecCatalog) (te : TestExecution)
    (args : Args) (hp : args.project ≠ "")
    (hmem : args.project ∈ cat.projects)
    (ht : args.test_or_suite ≠ "")
    (hns : args.test_or_suite ∉ cat.suites args.project)
    (hdir : cat.directory_matches args.project args.test_or_suite = true) :
    (RunCommand.run (catalogEnv cat) te args).2 =
      .ok (.runSuite te.root_path args.project args.test_or_suite true)
    ∧ ∀ tc, tc ∈ cat.directory_cases args.project args.test_or_suite ↔
        (tc ∈ cat.test_cases args.project ∧
          (targetSegments args.test_or_suite).isPrefixOf tc = true) := by
  constructor
  · simp [RunCommand.run, catalogEnv, hp, hmem, ht, hns, hdir]
  · intro tc
    simp [SpecCatalog.directory_cases, List.mem_filter]

/-- Witness for C5: on the spec-modelled catalog `catB` the nested directory
target `a.b` resolves to the directory-suite dispatch, and the enumerated
subtree contains the nested test case `a.b.t1` but not the outside case
`c`. -/
theorem resolve_directory_target_witness :
    (RunCommand.run (catalogEnv catB) teA argsNested).2 =
      .ok (.runSuite "root" "proj" "a.b" true)
    ∧ ["a", "b", "t1"] ∈ catB.directory_cases "proj" "a.b" :=
  ⟨(resolve_directory_target catB teA argsNested (by decide) (by decide)
      (by decide) (by decide) (by decide)).1,
   ((resolve_directory_target catB teA argsNested (by decide) (by decide)
      (by decide) (by decide) (by decide)).2 ["a", "b", "t1"]).mpr
      (by decide)⟩

/-- Counterexample for C6: resolution is not free of side effects. On a
context whose copied fields already hold the argument defaults, resolving
the suite target changes the shared execution context (it records the
project, settings and suite onto it), and the invocation writes a diagnostic
line to stdout. -/
theorem run_mutates_context_counterexample :
    (RunCommand.run_with_stdout envA teA argsSmoke).1.1 ≠ teA
    ∧ (RunCommand.run_with_stdout envA teA argsSmoke).2 ≠ [] := by
  constructor
  · decide
  · simp [RunCommand.run_with_stdout]

/-- Helper: on every path, the post-state of `run` is the input context with
the three copied fields set and some values for the project, settings, suite
and test fields; every other field (in particular `root_path`) is kept. -/
theorem run_state_eq (env : Env) (te : TestExecution) (args : Args) :
    ∃ p s su t,
      (RunCommand.run env te args).1 =
        { te with thread_amount := args.threads, drivers := args.drivers,
                  timestamp := args.timestamp, project := p, settings := s,
                  suite := su, test := t } := by
  by_cases hp : args.project = ""
  · exact ⟨te.project, te.settings, te.suite, te.test,
      by simp [RunCommand.run, hp]⟩
  · by_cases hm : args.project ∈ env.get_projects te.root_path
    · by_cases ht : args.test_or_suite = ""
      · exact ⟨some args.project,
          env.get_project_settings args.project te.settings, te.suite, te.test,
          by simp [RunCommand.run, hp, hm, ht]⟩
      · by_cases hs : env.test_suite_exists te.root_path args.project
            args.test_or_suite = true
        · exact ⟨some args.project,
            env.get_project_settings args.project te.settings,
            some args.test_or_suite, te.test,
            by simp [RunCommand.run, hp, hm, ht, hs]⟩
        · by_cases hd : env.is_first_level_directory te.root_path args.project
              args.test_or_suite = true
          · exact ⟨some args.project,
              env.get_project_settings args.project te.settings,
              some args.test_or_suite, te.test,
              by simp [RunCommand.run, hp, hm, ht, hs, hd]⟩
          · by_cases hc : env.test_case_exists te.root_path args.project
                args.test_or_suite = true
            · exact ⟨some args.project,
                env.get_project_settings args.project te.settings, te.suite,
                some args.test_or_suite,
                by simp [RunCommand.run, hp, hm, ht, hs, hd, hc]⟩
            · exact ⟨some args.project,
                env.get_project_settings args.project te.settings, te.suite,
                te.test,
                by simp [RunCommand.run, hp, hm, ht, hs, hd, hc]⟩
    · exact ⟨te.project, te.settings, te.suite, te.test,
        by simp [RunCommand.run, hp, hm]⟩

/-- Amended C6: apart from its catalog reads, `run` has exactly two effects —
it writes the one unconditional diagnostic line of line 47 to stdout, and it
writes the execution context's own fields (the copied thread amount, drivers
and timestamp, and the recorded project, settings, suite and test); in
particular the context's root path is never changed, and the result is a
pure function of the environment, context and arguments. -/
theorem run_frame (env : Env) (te : TestExecution) (args : Args) :
    (RunCommand.run_with_stdout env te args).2 =
      ["args.threads " ++ toString args.threads]
    ∧ ∃ p s su t,
        (RunCommand.run_with_stdout env te args).1.1 =
          { te with thread_amount := args.threads, drivers := args.drivers,
                    timestamp := args.timestamp, project := p, settings := s,
                    suite := su, test := t } :=
  ⟨rfl, run_state_eq env te args⟩

/-- Claim C7: the thread amount, drivers and timestamp supplied on the
command line are copied verbatim onto the execution context on every path;
under the spec-modelled generation, a missing or empty supplied timestamp is
replaced by a freshly generated one, and timestamps generated at distinct
clock readings never collide. -/
theorem run_copies_thread_and_timestamp (env : Env) (te : TestExecution)
    (args : Args) :
    ((RunCommand.run env te args).1.thread_amount = args.threads
      ∧ (RunCommand.run env te args).1.timestamp = args.timestamp
      ∧ (RunCommand.run env te args).1.drivers = args.drivers)
    ∧ (∀ clock : Nat, args.timestamp = none ∨ args.timestamp = some "" →
        effective_timestamp (RunCommand.run env te args).1.timestamp clock =
          .inr (generated_timestamp clock))
    ∧ (∀ c1 c2 : Nat, c1 ≠ c2 →
        generated_timestamp c1 ≠ generated_timestamp c2) := by
  obtain ⟨p, s, su, t, h⟩ := run_state_eq env te args
  refine ⟨⟨?_, ?_, ?_⟩, ?_, ?_⟩
  · rw [h]
  · rw [h]
  · rw [h]
  · intro clock hh
    rw [h]
    rcases hh with hh | hh <;> simp [hh, effective_timestamp]
  · intro c1 c2 hne hcontra
    exact hne (congrArg GeneratedTimestamp.clock_micros hcontra)

/-- Witness for C7: on the fixture run the thread amount is the supplied 0,
and the absent timestamp leads to the generated timestamp for clock reading
42. -/
theorem run_copies_thread_and_timestamp_witness :
    (RunCommand.run envA teA argsSmoke).1.thread_amount = 0
    ∧ effective_timestamp (RunCommand.run envA teA argsSmoke).1.timestamp 42 =
        .inr (generated_timestamp 42) :=
  ⟨(run_copies_thread_and_timestamp envA teA argsSmoke).1.1,
   (run_copies_thread_and_timestamp envA teA argsSmoke).2.1 42 (Or.inl rfl)⟩

/-- Claim C8: with an empty project argument, or a valid project but an empty
target, `run` evaluates the unbound name `parser` and so fails with a
`NameError`, not with the usage-message `CommandException` it sets out to
construct. -/
theorem run_usage_name_error (env : Env) (te : TestExecution) (args : Args) :
    (args.project = "" →
      (RunCommand.run env te args).2 = .error (.nameError "parser"))
    ∧ (args.project ≠ "" → args.project ∈ env.get_projects te.root_path →
       args.test_or_suite = "" →
      (RunCommand.run env te args).2 = .error (.nameError "parser")) := by
  constructor
  · intro hp
    simp [RunCommand.run, hp]
  · intro hp hm ht
    simp [RunCommand.run, hp, hm, ht]

/-- Witness for C8: both usage branches, evaluated on concrete fixtures, end
in the `NameError` for `parser`. -/
theorem run_usage_name_error_witness :
    (RunCommand.run envA teA argsNoProject).2 = .error (.nameError "parser")
    ∧ (RunCommand.run envA teA argsNoTarget).2 =
        .error (.nameError "parser") :=
  ⟨(run_usage_name_error envA teA argsNoProject).1 rfl,
   (run_usage_name_error envA teA argsNoTarget).2 (by decide) (by decide) rfl⟩

/-- Claim C9: `CreateSuiteCommand.run` for an existing project and every
`CreateUserCommand.run` invocation reference the unbound name `root_path`
and so fail with a `NameError` instead of performing the creation. -/
theorem create_suite_and_user_root_path_error (env : Env)
    (te : TestExecution) (project suite username password : String)
    (admin : Bool) (projects reports : List String)
    (hmem : project ∈ env.get_projects te.root_path) :
    CreateSuiteCommand.run env te project suite =
      .error (.nameError "root_path")
    ∧ CreateUserCommand.run te username password admin projects reports =
        .error (.nameError "root_path") := by
  constructor
  · simp [CreateSuiteCommand.run, hmem]
  · rfl

/-- Witness for C9: on the concrete fixtures, creating a suite in the
existing project `proj` and creating a user both fail with the `NameError`
for `root_path`. -/
theorem create_suite_and_user_root_path_error_witness :
    CreateSuiteCommand.run envA teA "proj" "new_suite" =
      .error (.nameError "root_path")
    ∧ CreateUserCommand.run teA "alice" "pw" false [] [] =
        .error (.nameError "root_path") :=
  ⟨(create_suite_and_user_root_path_error envA teA "proj" "new_suite" "alice"
      "pw" false [] [] (by decide)).1,
   (create_suite_and_user_root_path_error envA teA "proj" "new_suite" "alice"
      "pw" false [] [] (by decide)).2⟩

/-- Claim C10: `CreateProjectCommand.run` raises a `CommandException` exactly
when the project name already exists; otherwise the reserved name `demo`
creates the demo project and any other name an ordinary new project. -/
theorem createproject_behavior (env : Env) (te : TestExecution)
    (project : String) :
    ((∃ msg, CreateProjectCommand.run env te project =
        .error (.commandException msg)) ↔
      project ∈ env.get_projects te.root_path)
    ∧ (¬ project ∈ env.get_projects te.root_path → project = "demo" →
        CreateProjectCommand.run env te project =
          .ok (.createDemoProject te.root_path))
    ∧ (¬ project ∈ env.get_projects te.root_path → project ≠ "demo" →
        CreateProjectCommand.run env te project =
          .ok (.createNewProject te.root_path project)) := by
  refine ⟨⟨?_, ?_⟩, ?_, ?_⟩
  · rintro ⟨msg, hmsg⟩
    by_contra hm
    by_cases hd : project = "demo"
    · subst hd
      simp [CreateProjectCommand.run, hm] at hmsg
    · simp [CreateProjectCommand.run, hm, hd] at hmsg
  · intro hm
    exact ⟨"Error: a project with the name \x27" ++ project ++
      "\x27 already exists", by simp [CreateProjectCommand.run, hm]⟩
  · intro hm hd
    subst hd
    simp [CreateProjectCommand.run, hm]
  · intro hm hd
    simp [CreateProjectCommand.run, hm, hd]

/-- Witness for C10: with only `proj` existing, creating `demo` dispatches
the demo-project creation and creating `newproj` an ordinary creation. -/
theorem createproject_behavior_witness :
    CreateProjectCommand.run envA teA "demo" =
      .ok (.createDemoProject "root")
    ∧ CreateProjectCommand.run envA teA "newproj" =
        .ok (.createNewProject "root" "newproj") :=
  ⟨(createproject_behavior envA teA "demo").2.1 (by decide) rfl,
   (createproject_behavior envA teA "newproj").2.2 (by decide) (by decide)⟩

end Golem
